import Mathlib

/-!
Verification of the plant-configuration catalog (`data.py`).

The Python module defines six frozen dataclasses, two concrete
`PlantConfiguration` instances (AEC and PEM, both 100 MW), the constant
list `PLANT_CONFIGURATIONS = [AEC_100MW_ENS_2025, PEM_100MW_ENS_2025]`,
and `as_dict_list()`, which returns `[asdict(config) for config in
PLANT_CONFIGURATIONS]`.

Embedding choices:
* Python float literals in the source are exact decimal literals on both
  sides of every comparison the spec makes, so numeric fields are
  embedded as exact rationals (`ℚ`).
* The optional field `heat_pct_total_input_mwh : Optional[float]` is
  embedded as `Option ℚ`; Python `None` is `Option.none`.
* `dataclasses.asdict` builds fresh `dict` objects on every call.  To be
  able to state the aliasing-freedom claims, dictionaries are modelled on
  an explicit heap: a `Heap` is a list of dictionaries, a dictionary is
  an association list from string keys to `PyVal` values, and a nested
  dictionary is referenced by its heap index.  Allocation appends at the
  end of the heap, matching the fact that each Python call constructs
  brand-new dict objects.
-/

/-- Values stored in a modelled Python dictionary: a number, a string,
Python `None`, or a reference to another dictionary on the heap. -/
inductive PyVal : Type
  | num (q : ℚ)
  | str (s : String)
  | null
  | ref (i : Nat)
deriving DecidableEq

/-- A modelled Python dictionary: an association list preserving insertion
order, as Python dicts do. -/
abbrev Dict : Type := List (String × PyVal)

/-- A heap of dictionary objects; a dictionary's identity is its index. -/
abbrev Heap : Type := List Dict

/-- `InputData` from `data.py`: input-energy split percentages and water
consumption.  `heat_pct_total_input_mwh` is `Optional[float]`. -/
structure InputData where
  electricity_pct_total_input_mwh : ℚ
  heat_pct_total_input_mwh : Option ℚ
  heat_loss_pct_total_input_mwh : ℚ
  water_for_electrolysis_kg_per_mwh_input : ℚ
deriving DecidableEq

/-- `OutputData` from `data.py`: output-energy split and yields. -/
structure OutputData where
  hydrogen_output_pct_total_output_mwh : ℚ
  hydrogen_ch2_pct_total_output : ℚ
  hydrogen_for_district_heating_pct_points_of_heat_loss : ℚ
  oxygen_output_pct_total_output_mwh : ℚ
  oxygen_recovered_for_district_heating_pct_points_of_heat_loss : ℚ
  heat_output_pct_total_output_mwh : ℚ
  hydrogen_yield_kg_per_mwh_input_e : ℚ
  oxygen_yield_kg_per_mwh_input_e : ℚ
deriving DecidableEq

/-- `EnergyTechnicalData` from `data.py`. -/
structure EnergyTechnicalData where
  total_plant_size_mw_input_e : ℚ
  planned_outage_days_per_annum : ℚ
  technical_lifetime_years : ℚ
  input : InputData
  output : OutputData
deriving DecidableEq

/-- `FinancialData` from `data.py`. -/
structure FinancialData where
  specific_investment_eur_per_kw_total_input : ℚ
  specific_investment_eur_per_kg_per_hour_hydrogen_output : ℚ
  o_and_m_pct_of_specific_investment_per_year : ℚ
deriving DecidableEq

/-- `TechnologySpecificData` from `data.py`. -/
structure TechnologySpecificData where
  current_density_a_per_cm2 : ℚ
  footprint_m2_per_mw_input_e : ℚ
  degradation_rate_pct_per_annum : ℚ
  frequency_of_stack_replacement_years : ℚ
deriving DecidableEq

/-- `PlantConfiguration` from `data.py`: the top-level record. -/
structure PlantConfiguration where
  name : String
  energy_technical : EnergyTechnicalData
  financial : FinancialData
  technology_specific : TechnologySpecificData
deriving DecidableEq

/-- Each of the six dataclasses in `data.py` is declared with
`@dataclass(frozen=True)`; these constants record that flag. -/
def InputData.dataclassFrozen : Bool := true

/-- Frozen flag of `OutputData` (`@dataclass(frozen=True)`). -/
def OutputData.dataclassFrozen : Bool := true

/-- Frozen flag of `EnergyTechnicalData` (`@dataclass(frozen=True)`). -/
def EnergyTechnicalData.dataclassFrozen : Bool := true

/-- Frozen flag of `FinancialData` (`@dataclass(frozen=True)`). -/
def FinancialData.dataclassFrozen : Bool := true

/-- Frozen flag of `TechnologySpecificData` (`@dataclass(frozen=True)`). -/
def TechnologySpecificData.dataclassFrozen : Bool := true

/-- Frozen flag of `PlantConfiguration` (`@dataclass(frozen=True)`). -/
def PlantConfiguration.dataclassFrozen : Bool := true

/-- Semantics of attribute assignment on a dataclass instance, following
CPython `dataclasses`: the synthesised setter of a frozen dataclass
unconditionally raises `FrozenInstanceError`; on a non-frozen dataclass
the assignment goes through and yields the updated record. -/
def dcSetattr {α : Type} (frozen : Bool) (obj : α) (upd : α → α) :
    Except String α :=
  if frozen then Except.error "FrozenInstanceError" else Except.ok (upd obj)

/-- `AEC_100MW_ENS_2025` from `data.py`, all literal values verbatim. -/
def AEC_100MW_ENS_2025 : PlantConfiguration :=
  { name := "AEC 100 MW (ENS, 2025)"
    energy_technical :=
      { total_plant_size_mw_input_e := 100.0
        planned_outage_days_per_annum := 20.0
        technical_lifetime_years := 20.0
        input :=
          { electricity_pct_total_input_mwh := 100.0
            heat_pct_total_input_mwh := Option.none
            heat_loss_pct_total_input_mwh := 0.0
            water_for_electrolysis_kg_per_mwh_input := 89.15 }
        output :=
          { hydrogen_output_pct_total_output_mwh := 58.7
            hydrogen_ch2_pct_total_output := 32.3
            hydrogen_for_district_heating_pct_points_of_heat_loss := 26.4
            oxygen_output_pct_total_output_mwh := 40.9
            oxygen_recovered_for_district_heating_pct_points_of_heat_loss := 0.0
            heat_output_pct_total_output_mwh := 0.4
            hydrogen_yield_kg_per_mwh_input_e := 20.00
            oxygen_yield_kg_per_mwh_input_e := 141.79 } }
    financial :=
      { specific_investment_eur_per_kw_total_input := 1161.3
        specific_investment_eur_per_kg_per_hour_hydrogen_output := 5585.15
        o_and_m_pct_of_specific_investment_per_year := 15.0 }
    technology_specific :=
      { current_density_a_per_cm2 := 0.5
        footprint_m2_per_mw_input_e := 10000.0
        degradation_rate_pct_per_annum := 0.125
        frequency_of_stack_replacement_years := 10.0 } }

/-- `PEM_100MW_ENS_2025` from `data.py`, all literal values verbatim. -/
def PEM_100MW_ENS_2025 : PlantConfiguration :=
  { name := "PEM 100 MW (ENS, 2025)"
    energy_technical :=
      { total_plant_size_mw_input_e := 100.0
        planned_outage_days_per_annum := 20.0
        technical_lifetime_years := 20.0
        input :=
          { electricity_pct_total_input_mwh := 100.0
            heat_pct_total_input_mwh := Option.none
            heat_loss_pct_total_input_mwh := 0.0
            water_for_electrolysis_kg_per_mwh_input := 91.82 }
        output :=
          { hydrogen_output_pct_total_output_mwh := 73.3
            hydrogen_ch2_pct_total_output := 25.0
            hydrogen_for_district_heating_pct_points_of_heat_loss := 30.0
            oxygen_output_pct_total_output_mwh := 25.7
            oxygen_recovered_for_district_heating_pct_points_of_heat_loss := 0.0
            heat_output_pct_total_output_mwh := 1.0
            hydrogen_yield_kg_per_mwh_input_e := 20.95
            oxygen_yield_kg_per_mwh_input_e := 148.53 } }
    financial :=
      { specific_investment_eur_per_kw_total_input := 1368.2
        specific_investment_eur_per_kg_per_hour_hydrogen_output := 6876.8
        o_and_m_pct_of_specific_investment_per_year := 15.0 }
    technology_specific :=
      { current_density_a_per_cm2 := 2.0
        footprint_m2_per_mw_input_e := 7000.0
        degradation_rate_pct_per_annum := 0.125
        frequency_of_stack_replacement_years := 6.0 } }

/-- `PLANT_CONFIGURATIONS` from `data.py`. -/
def PLANT_CONFIGURATIONS : List PlantConfiguration :=
  [AEC_100MW_ENS_2025, PEM_100MW_ENS_2025]

/-- How `dataclasses.asdict` renders the optional heat field: `None`
becomes Python `None`, a number is copied verbatim. -/
def optVal : Option ℚ → PyVal
  | Option.none => PyVal.null
  | Option.some q => PyVal.num q

/-- The dictionary `asdict` builds for an `InputData` record: one key per
field, in declaration order, values verbatim. -/
def inputDict (i : InputData) : Dict :=
  [("electricity_pct_total_input_mwh", PyVal.num i.electricity_pct_total_input_mwh),
   ("heat_pct_total_input_mwh", optVal i.heat_pct_total_input_mwh),
   ("heat_loss_pct_total_input_mwh", PyVal.num i.heat_loss_pct_total_input_mwh),
   ("water_for_electrolysis_kg_per_mwh_input", PyVal.num i.water_for_electrolysis_kg_per_mwh_input)]

/-- The dictionary `asdict` builds for an `OutputData` record. -/
def outputDict (o : OutputData) : Dict :=
  [("hydrogen_output_pct_total_output_mwh", PyVal.num o.hydrogen_output_pct_total_output_mwh),
   ("hydrogen_ch2_pct_total_output", PyVal.num o.hydrogen_ch2_pct_total_output),
   ("hydrogen_for_district_heating_pct_points_of_heat_loss", PyVal.num o.hydrogen_for_district_heating_pct_points_of_heat_loss),
   ("oxygen_output_pct_total_output_mwh", PyVal.num o.oxygen_output_pct_total_output_mwh),
   ("oxygen_recovered_for_district_heating_pct_points_of_heat_loss", PyVal.num o.oxygen_recovered_for_district_heating_pct_points_of_heat_loss),
   ("heat_output_pct_total_output_mwh", PyVal.num o.heat_output_pct_total_output_mwh),
   ("hydrogen_yield_kg_per_mwh_input_e", PyVal.num o.hydrogen_yield_kg_per_mwh_input_e),
   ("oxygen_yield_kg_per_mwh_input_e", PyVal.num o.oxygen_yield_kg_per_mwh_input_e)]

/-- The dictionary `asdict` builds for a `FinancialData` record. -/
def financialDict (f : FinancialData) : Dict :=
  [("specific_investment_eur_per_kw_total_input", PyVal.num f.specific_investment_eur_per_kw_total_input),
   ("specific_investment_eur_per_kg_per_hour_hydrogen_output", PyVal.num f.specific_investment_eur_per_kg_per_hour_hydrogen_output),
   ("o_and_m_pct_of_specific_investment_per_year", PyVal.num f.o_and_m_pct_of_specific_investment_per_year)]

/-- The dictionary `asdict` builds for a `TechnologySpecificData` record. -/
def technologyDict (t : TechnologySpecificData) : Dict :=
  [("current_density_a_per_cm2", PyVal.num t.current_density_a_per_cm2),
   ("footprint_m2_per_mw_input_e", PyVal.num t.footprint_m2_per_mw_input_e),
   ("degradation_rate_pct_per_annum", PyVal.num t.degradation_rate_pct_per_annum),
   ("frequency_of_stack_replacement_years", PyVal.num t.frequency_of_stack_replacement_years)]

/-- The dictionary `asdict` builds for an `EnergyTechnicalData` record;
the nested `input` and `output` dictionaries are referenced by heap index. -/
def energyDict (e : EnergyTechnicalData) (iid oid : Nat) : Dict :=
  [("total_plant_size_mw_input_e", PyVal.num e.total_plant_size_mw_input_e),
   ("planned_outage_days_per_annum", PyVal.num e.planned_outage_days_per_annum),
   ("technical_lifetime_years", PyVal.num e.technical_lifetime_years),
   ("input", PyVal.ref iid),
   ("output", PyVal.ref oid)]

/-- The top-level dictionary `asdict` builds for a `PlantConfiguration`. -/
def configDict (c : PlantConfiguration) (eid fid tid : Nat) : Dict :=
  [("name", PyVal.str c.name),
   ("energy_technical", PyVal.ref eid),
   ("financial", PyVal.ref fid),
   ("technology_specific", PyVal.ref tid)]

/-- Allocate a fresh dictionary object: it is appended to the heap and
its identity is the old heap length, so a fresh object never coincides
with an existing one. -/
def allocDict (h : Heap) (d : Dict) : Heap × Nat :=
  (h ++ [d], h.length)

/-- `asdict` on an `InputData`: allocates one fresh dictionary. -/
def asdictInput (h : Heap) (i : InputData) : Heap × Nat :=
  allocDict h (inputDict i)

/-- `asdict` on an `OutputData`: allocates one fresh dictionary. -/
def asdictOutput (h : Heap) (o : OutputData) : Heap × Nat :=
  allocDict h (outputDict o)

/-- `asdict` on a `FinancialData`: allocates one fresh dictionary. -/
def asdictFinancial (h : Heap) (f : FinancialData) : Heap × Nat :=
  allocDict h (financialDict f)

/-- `asdict` on a `TechnologySpecificData`: allocates one fresh dictionary. -/
def asdictTechnology (h : Heap) (t : TechnologySpecificData) : Heap × Nat :=
  allocDict h (technologyDict t)

/-- `asdict` on an `EnergyTechnicalData`: recursively converts the nested
records, then allocates the outer dictionary referencing them. -/
def asdictEnergy (h : Heap) (e : EnergyTechnicalData) : Heap × Nat :=
  let hi := asdictInput h e.input
  let ho := asdictOutput hi.1 e.output
  allocDict ho.1 (energyDict e hi.2 ho.2)

/-- `asdict` on a `PlantConfiguration`: recursively converts the nested
records, then allocates the top-level dictionary referencing them. -/
def asdictConfig (h : Heap) (c : PlantConfiguration) : Heap × Nat :=
  let he := asdictEnergy h c.energy_technical
  let hf := asdictFinancial he.1 c.financial
  let ht := asdictTechnology hf.1 c.technology_specific
  allocDict ht.1 (configDict c he.2 hf.2 ht.2)

/-- Convert a list of configurations, in order, threading the heap. -/
def asdictConfigs (h : Heap) : List PlantConfiguration → Heap × List Nat
  | [] => (h, [])
  | c :: rest =>
    let hc := asdictConfig h c
    let hs := asdictConfigs hc.1 rest
    (hs.1, hc.2 :: hs.2)

/-- `as_dict_list()` from `data.py`:
`[asdict(config) for config in PLANT_CONFIGURATIONS]`.  The argument is
the heap the call starts from (in Python, whatever objects already
exist); the result is the extended heap together with the identities of
the top-level dictionaries, in catalog order. -/
def as_dict_list (h : Heap) : Heap × List Nat :=
  asdictConfigs h PLANT_CONFIGURATIONS

/-- Fetch the dictionary with identity `i`, if it exists on the heap. -/
def heapDict (h : Heap) (i : Nat) : Option Dict := h[i]?

/-- Python `d[k]`: look a key up in a dictionary (first binding wins;
the dictionaries built here never repeat a key). -/
def dlookup : Dict → String → Option PyVal
  | [], _ => Option.none
  | (k', v) :: rest, k => if k = k' then Option.some v else dlookup rest k

/-- Read a `PyVal` back as a number. -/
def asNum : PyVal → Option ℚ
  | PyVal.num q => Option.some q
  | _ => Option.none

/-- Read a `PyVal` back as an optional number (`None` ↦ absent). -/
def asOptNum : PyVal → Option (Option ℚ)
  | PyVal.num q => Option.some (Option.some q)
  | PyVal.null => Option.some Option.none
  | _ => Option.none

/-- Read a `PyVal` back as a string. -/
def asStr : PyVal → Option String
  | PyVal.str s => Option.some s
  | _ => Option.none

/-- Read a `PyVal` back as a dictionary reference. -/
def asRef : PyVal → Option Nat
  | PyVal.ref i => Option.some i
  | _ => Option.none

/-- Rebuild an `InputData` record by reading every field of dictionary
`i` by its key. -/
def readInput (h : Heap) (i : Nat) : Option InputData :=
  (heapDict h i).bind fun d =>
  ((dlookup d "electricity_pct_total_input_mwh").bind asNum).bind fun e =>
  ((dlookup d "heat_pct_total_input_mwh").bind asOptNum).bind fun hp =>
  ((dlookup d "heat_loss_pct_total_input_mwh").bind asNum).bind fun hl =>
  ((dlookup d "water_for_electrolysis_kg_per_mwh_input").bind asNum).map fun w =>
  { electricity_pct_total_input_mwh := e
    heat_pct_total_input_mwh := hp
    heat_loss_pct_total_input_mwh := hl
    water_for_electrolysis_kg_per_mwh_input := w }

/-- Rebuild an `OutputData` record by reading every field of dictionary
`i` by its key. -/
def readOutput (h : Heap) (i : Nat) : Option OutputData :=
  (heapDict h i).bind fun d =>
  ((dlookup d "hydrogen_output_pct_total_output_mwh").bind asNum).bind fun a =>
  ((dlookup d "hydrogen_ch2_pct_total_output").bind asNum).bind fun b =>
  ((dlookup d "hydrogen_for_district_heating_pct_points_of_heat_loss").bind asNum).bind fun c =>
  ((dlookup d "oxygen_output_pct_total_output_mwh").bind asNum).bind fun dd =>
  ((dlookup d "oxygen_recovered_for_district_heating_pct_points_of_heat_loss").bind asNum).bind fun e =>
  ((dlookup d "heat_output_pct_total_output_mwh").bind asNum).bind fun f =>
  ((dlookup d "hydrogen_yield_kg_per_mwh_input_e").bind asNum).bind fun g =>
  ((dlookup d "oxygen_yield_kg_per_mwh_input_e").bind asNum).map fun k =>
  { hydrogen_output_pct_total_output_mwh := a
    hydrogen_ch2_pct_total_output := b
    hydrogen_for_district_heating_pct_points_of_heat_loss := c
    oxygen_output_pct_total_output_mwh := dd
    oxygen_recovered_for_district_heating_pct_points_of_heat_loss := e
    heat_output_pct_total_output_mwh := f
    hydrogen_yield_kg_per_mwh_input_e := g
    oxygen_yield_kg_per_mwh_input_e := k }

/-- Rebuild a `FinancialData` record by reading every field of dictionary
`i` by its key. -/
def readFinancial (h : Heap) (i : Nat) : Option FinancialData :=
  (heapDict h i).bind fun d =>
  ((dlookup d "specific_investment_eur_per_kw_total_input").bind asNum).bind fun a =>
  ((dlookup d "specific_investment_eur_per_kg_per_hour_hydrogen_output").bind asNum).bind fun b =>
  ((dlookup d "o_and_m_pct_of_specific_investment_per_year").bind asNum).map fun c =>
  { specific_investment_eur_per_kw_total_input := a
    specific_investment_eur_per_kg_per_hour_hydrogen_output := b
    o_and_m_pct_of_specific_investment_per_year := c }

/-- Rebuild a `TechnologySpecificData` record by reading every field of
dictionary `i` by its key. -/
def readTechnology (h : Heap) (i : Nat) : Option TechnologySpecificData :=
  (heapDict h i).bind fun d =>
  ((dlookup d "current_density_a_per_cm2").bind asNum).bind fun a =>
  ((dlookup d "footprint_m2_per_mw_input_e").bind asNum).bind fun b =>
  ((dlookup d "degradation_rate_pct_per_annum").bind asNum).bind fun c =>
  ((dlookup d "frequency_of_stack_replacement_years").bind asNum).map fun dd =>
  { current_density_a_per_cm2 := a
    footprint_m2_per_mw_input_e := b
    degradation_rate_pct_per_annum := c
    frequency_of_stack_replacement_years := dd }

/-- Rebuild an `EnergyTechnicalData` record by reading every field of
dictionary `i` by its key, following the nested references. -/
def readEnergy (h : Heap) (i : Nat) : Option EnergyTechnicalData :=
  (heapDict h i).bind fun d =>
  ((dlookup d "total_plant_size_mw_input_e").bind asNum).bind fun a =>
  ((dlookup d "planned_outage_days_per_annum").bind asNum).bind fun b =>
  ((dlookup d "technical_lifetime_years").bind asNum).bind fun c =>
  (((dlookup d "input").bind asRef).bind (readInput h)).bind fun ii =>
  (((dlookup d "output").bind asRef).bind (readOutput h)).map fun oo =>
  { total_plant_size_mw_input_e := a
    planned_outage_days_per_annum := b
    technical_lifetime_years := c
    input := ii
    output := oo }

/-- Rebuild a `PlantConfiguration` record by reading every field of
dictionary `i` by its key, following the nested references. -/
def readConfig (h : Heap) (i : Nat) : Option PlantConfiguration :=
  (heapDict h i).bind fun d =>
  ((dlookup d "name").bind asStr).bind fun n =>
  (((dlookup d "energy_technical").bind asRef).bind (readEnergy h)).bind fun e =>
  (((dlookup d "financial").bind asRef).bind (readFinancial h)).bind fun f =>
  (((dlookup d "technology_specific").bind asRef).bind (readTechnology h)).map fun t =>
  { name := n
    energy_technical := e
    financial := f
    technology_specific := t }

/-- Read a list of configuration dictionaries back, in order. -/
def readAll (h : Heap) : List Nat → Option (List PlantConfiguration)
  | [] => Option.some []
  | i :: rest =>
    (readConfig h i).bind fun c =>
    (readAll h rest).map fun cs => c :: cs

/-- The keys of a dictionary, in insertion order. -/
def dictKeys (d : Dict) : List String := d.map Prod.fst

/-- Python `d[k] = v` on the dictionary with identity `i`: replaces the
binding if the key is present, appends it otherwise; other heap objects
are untouched. -/
def dset : Dict → String → PyVal → Dict
  | [], k, v => [(k, v)]
  | (k', v') :: rest, k, v =>
    if k = k' then (k, v) :: rest else (k', v') :: dset rest k v

/-- Mutate one dictionary on the heap (Python `heap-object[k] = v`). -/
def setKey (h : Heap) (i : Nat) (k : String) (v : PyVal) : Heap :=
  match h[i]? with
  | Option.some d => h.set i (dset d k v)
  | Option.none => h

/-- The six dictionaries one `asdict(config)` call appends to the heap,
when the heap already holds `L` objects: input, output, energy,
financial, technology, and the top-level configuration dictionary. -/
def cfgTail (L : Nat) (c : PlantConfiguration) : Heap :=
  [inputDict c.energy_technical.input,
   outputDict c.energy_technical.output,
   energyDict c.energy_technical L (L + 1),
   financialDict c.financial,
   technologyDict c.technology_specific,
   configDict c (L + 2) (L + 3) (L + 4)]

/-- `asdict` on a configuration only appends six fresh dictionaries; the
result dictionary is the last one. -/
lemma asdictConfig_eq (h : Heap) (c : PlantConfiguration) :
    asdictConfig h c = (h ++ cfgTail h.length c, h.length + 5) := by
  simp [asdictConfig, asdictEnergy, asdictInput, asdictOutput, asdictFinancial,
        asdictTechnology, allocDict, cfgTail]

/-- Indexing past a heap prefix lands in the tail. -/
lemma getElem_append_off (h t : Heap) (k : Nat) :
    (h ++ t)[h.length + k]? = t[k]? := by
  rw [List.getElem?_append_right (Nat.le_add_right _ _)]
  simp

/-- Indexing at the length of a heap prefix lands at the tail's head. -/
lemma getElem_append_len (h t : Heap) :
    (h ++ t)[h.length]? = t[0]? := by
  simpa using getElem_append_off h t 0

/-- Reading an input dictionary found at offset `k` of the tail rebuilds
the original record. -/
lemma readInput_off (h t : Heap) (k : Nat) (i : InputData)
    (ht : t[k]? = Option.some (inputDict i)) :
    readInput (h ++ t) (h.length + k) = Option.some i := by
  cases i with
  | mk i1 i2 i3 i4 =>
    cases i2 <;>
      simp [readInput, heapDict, getElem_append_off, ht, inputDict, dlookup,
        asNum, asOptNum, optVal]

/-- Reading an output dictionary found at offset `k` of the tail rebuilds
the original record. -/
lemma readOutput_off (h t : Heap) (k : Nat) (o : OutputData)
    (ht : t[k]? = Option.some (outputDict o)) :
    readOutput (h ++ t) (h.length + k) = Option.some o := by
  simp [readOutput, heapDict, getElem_append_off, ht, outputDict, dlookup, asNum]

/-- Reading a financial dictionary found at offset `k` of the tail
rebuilds the original record. -/
lemma readFinancial_off (h t : Heap) (k : Nat) (f : FinancialData)
    (ht : t[k]? = Option.some (financialDict f)) :
    readFinancial (h ++ t) (h.length + k) = Option.some f := by
  simp [readFinancial, heapDict, getElem_append_off, ht, financialDict, dlookup, asNum]

/-- Reading a technology dictionary found at offset `k` of the tail
rebuilds the original record. -/
lemma readTechnology_off (h t : Heap) (k : Nat) (tc : TechnologySpecificData)
    (ht : t[k]? = Option.some (technologyDict tc)) :
    readTechnology (h ++ t) (h.length + k) = Option.some tc := by
  simp [readTechnology, heapDict, getElem_append_off, ht, technologyDict, dlookup, asNum]

/-- Variant of `readInput_off` for a reference that is exactly the prefix
length. -/
lemma readInput_len (h t : Heap) (i : InputData)
    (ht : t[0]? = Option.some (inputDict i)) :
    readInput (h ++ t) h.length = Option.some i := by
  simpa using readInput_off h t 0 i ht

/-- Reading an energy dictionary rebuilds the original record, provided
its nested input/output dictionaries sit at tail offsets 0 and 1. -/
lemma readEnergy_off (h t : Heap) (k : Nat) (e : EnergyTechnicalData)
    (ht : t[k]? = Option.some (energyDict e h.length (h.length + 1)))
    (hti : t[0]? = Option.some (inputDict e.input))
    (hto : t[1]? = Option.some (outputDict e.output)) :
    readEnergy (h ++ t) (h.length + k) = Option.some e := by
  simp [readEnergy, heapDict, getElem_append_off, ht, energyDict, dlookup,
    asNum, asRef, readInput_len h t e.input hti, readOutput_off h t 1 e.output hto]

/-- Round trip over an arbitrary pre-existing heap and arbitrary later
allocations: reading back the dictionary `asdict` built for `c`, field by
field and key by key, yields exactly `c`. -/
lemma readConfig_asdict (h extra : Heap) (c : PlantConfiguration) :
    readConfig ((asdictConfig h c).1 ++ extra) ((asdictConfig h c).2)
    = Option.some c := by
  rw [asdictConfig_eq, List.append_assoc]
  have hti : (cfgTail h.length c ++ extra)[0]?
      = Option.some (inputDict c.energy_technical.input) := by
    simp [cfgTail]
  have hto : (cfgTail h.length c ++ extra)[1]?
      = Option.some (outputDict c.energy_technical.output) := by
    simp [cfgTail]
  have hte : (cfgTail h.length c ++ extra)[2]?
      = Option.some (energyDict c.energy_technical h.length (h.length + 1)) := by
    simp [cfgTail]
  have htf : (cfgTail h.length c ++ extra)[3]?
      = Option.some (financialDict c.financial) := by
    simp [cfgTail]
  have htt : (cfgTail h.length c ++ extra)[4]?
      = Option.some (technologyDict c.technology_specific) := by
    simp [cfgTail]
  have htc : (cfgTail h.length c ++ extra)[5]?
      = Option.some (configDict c (h.length + 2) (h.length + 3) (h.length + 4)) := by
    simp [cfgTail]
  simp [readConfig, heapDict, getElem_append_off, htc, configDict, dlookup,
    asStr, asRef,
    readEnergy_off h (cfgTail h.length c ++ extra) 2 c.energy_technical hte hti hto,
    readFinancial_off h (cfgTail h.length c ++ extra) 3 c.financial htf,
    readTechnology_off h (cfgTail h.length c ++ extra) 4 c.technology_specific htt]

/-- Converting a list of configurations only appends to the heap. -/
lemma asdictConfigs_shape : ∀ (cs : List PlantConfiguration) (h : Heap),
    ∃ tail, (asdictConfigs h cs).1 = h ++ tail := by
  intro cs
  induction cs with
  | nil =>
    intro h
    exact ⟨[], by simp [asdictConfigs]⟩
  | cons c rest ih =>
    intro h
    obtain ⟨t2, ht2⟩ := ih (asdictConfig h c).1
    rw [asdictConfig_eq] at ht2
    refine ⟨cfgTail h.length c ++ t2, ?_⟩
    simp [asdictConfigs, asdictConfig_eq, ht2, List.append_assoc]

/-- Converting a list of configurations produces one dictionary identity
per configuration. -/
lemma asdictConfigs_ids_length : ∀ (cs : List PlantConfiguration) (h : Heap),
    (asdictConfigs h cs).2.length = cs.length := by
  intro cs
  induction cs with
  | nil =>
    intro h
    rfl
  | cons c rest ih =>
    intro h
    simp [asdictConfigs, ih]

/-- Reading the result of converting any configuration list, from any
starting heap, yields exactly that list. -/
lemma readAll_asdictConfigs : ∀ (cs : List PlantConfiguration) (h : Heap),
    readAll (asdictConfigs h cs).1 (asdictConfigs h cs).2 = Option.some cs := by
  intro cs
  induction cs with
  | nil =>
    intro h
    rfl
  | cons c rest ih =>
    intro h
    obtain ⟨tail, htail⟩ := asdictConfigs_shape rest (asdictConfig h c).1
    have h2 := ih (asdictConfig h c).1
    simp only [asdictConfigs, readAll]
    rw [htail] at h2 ⊢
    rw [readConfig_asdict h tail c, h2]
    rfl

/-- Reading back the result of `as_dict_list()` started from any heap
yields exactly the catalog. -/
lemma readAll_as_dict_list (h : Heap) :
    readAll (as_dict_list h).1 (as_dict_list h).2
    = Option.some PLANT_CONFIGURATIONS :=
  readAll_asdictConfigs PLANT_CONFIGURATIONS h

/-- Claim C1: the catalog `PLANT_CONFIGURATIONS` contains exactly two
entries, in the fixed order [AEC configuration, PEM configuration]; being
a constant of the model, it never changes. -/
theorem catalog_fixed_two_entries :
    PLANT_CONFIGURATIONS.length = 2 ∧
    PLANT_CONFIGURATIONS = [AEC_100MW_ENS_2025, PEM_100MW_ENS_2025] ∧
    PLANT_CONFIGURATIONS[0]? = Option.some AEC_100MW_ENS_2025 ∧
    PLANT_CONFIGURATIONS[1]? = Option.some PEM_100MW_ENS_2025 :=
  ⟨rfl, rfl, rfl, rfl⟩

/-- Claim C2: the first catalog entry is the AEC configuration, with the
name, plant size, absent heat percentage, hydrogen yield, specific
investment, and current density stated in the spec. -/
theorem aec_configuration_values :
    PLANT_CONFIGURATIONS[0]? = Option.some AEC_100MW_ENS_2025 ∧
    AEC_100MW_ENS_2025.name = "AEC 100 MW (ENS, 2025)" ∧
    AEC_100MW_ENS_2025.energy_technical.total_plant_size_mw_input_e = 100.0 ∧
    AEC_100MW_ENS_2025.energy_technical.input.heat_pct_total_input_mwh = Option.none ∧
    AEC_100MW_ENS_2025.energy_technical.output.hydrogen_yield_kg_per_mwh_input_e = 20.00 ∧
    AEC_100MW_ENS_2025.financial.specific_investment_eur_per_kw_total_input = 1161.3 ∧
    AEC_100MW_ENS_2025.technology_specific.current_density_a_per_cm2 = 0.5 :=
  ⟨rfl, rfl, rfl, rfl, rfl, rfl, rfl⟩

/-- Claim C3: the second catalog entry is the PEM configuration, with the
name, hydrogen yield, specific investment per kg/h, and stack-replacement
frequency stated in the spec. -/
theorem pem_configuration_values :
    PLANT_CONFIGURATIONS[1]? = Option.some PEM_100MW_ENS_2025 ∧
    PEM_100MW_ENS_2025.name = "PEM 100 MW (ENS, 2025)" ∧
    PEM_100MW_ENS_2025.energy_technical.output.hydrogen_yield_kg_per_mwh_input_e = 20.95 ∧
    PEM_100MW_ENS_2025.financial.specific_investment_eur_per_kg_per_hour_hydrogen_output = 6876.8 ∧
    PEM_100MW_ENS_2025.technology_specific.frequency_of_stack_replacement_years = 6.0 :=
  ⟨rfl, rfl, rfl, rfl, rfl⟩

/-- Claim C4: round trip.  For every configuration in the catalog,
reading every field (nested records included) back by its key from the
dictionaries `as_dict_list()` produced rebuilds exactly the original
record — stated both for an arbitrary starting heap and concretely for
the two catalog entries; and in both input dictionaries (heap indices 0
and 6 when starting from the empty heap) the absent heat-percentage key
is present and bound to `None` (so it is neither omitted nor zero). -/
theorem asdict_roundtrip_exact :
    (∀ h : Heap, readAll (as_dict_list h).1 (as_dict_list h).2
      = Option.some PLANT_CONFIGURATIONS) ∧
    readConfig (as_dict_list []).1 5 = Option.some AEC_100MW_ENS_2025 ∧
    readConfig (as_dict_list []).1 11 = Option.some PEM_100MW_ENS_2025 ∧
    (heapDict (as_dict_list []).1 0).bind
      (fun d => dlookup d "heat_pct_total_input_mwh") = Option.some PyVal.null ∧
    (heapDict (as_dict_list []).1 6).bind
      (fun d => dlookup d "heat_pct_total_input_mwh") = Option.some PyVal.null :=
  ⟨readAll_as_dict_list, rfl, rfl, rfl, rfl⟩

/-- Claim C5: the adapter returns one nested dictionary per configuration
in catalog order; every dictionary's keys mirror the record's field names
exactly, nested records become nested dictionaries, values are copied
verbatim (witnessed by the exact readback), and the adapter is pure: it
only appends fresh objects to the heap and the catalog itself is a
constant it never touches. -/
theorem as_dict_list_pure_shape :
    (∀ h : Heap, ∃ tail, (as_dict_list h).1 = h ++ tail) ∧
    (∀ h : Heap, (as_dict_list h).2.length = PLANT_CONFIGURATIONS.length) ∧
    (∀ h : Heap, readAll (as_dict_list h).1 (as_dict_list h).2
      = Option.some PLANT_CONFIGURATIONS) ∧
    (∀ c : PlantConfiguration, ∀ eid fid tid : Nat,
      dictKeys (configDict c eid fid tid)
      = ["name", "energy_technical", "financial", "technology_specific"]) ∧
    (∀ e : EnergyTechnicalData, ∀ iid oid : Nat,
      dictKeys (energyDict e iid oid)
      = ["total_plant_size_mw_input_e", "planned_outage_days_per_annum",
         "technical_lifetime_years", "input", "output"]) ∧
    (∀ i : InputData, dictKeys (inputDict i)
      = ["electricity_pct_total_input_mwh", "heat_pct_total_input_mwh",
         "heat_loss_pct_total_input_mwh", "water_for_electrolysis_kg_per_mwh_input"]) ∧
    (∀ o : OutputData, dictKeys (outputDict o)
      = ["hydrogen_output_pct_total_output_mwh", "hydrogen_ch2_pct_total_output",
         "hydrogen_for_district_heating_pct_points_of_heat_loss",
         "oxygen_output_pct_total_output_mwh",
         "oxygen_recovered_for_district_heating_pct_points_of_heat_loss",
         "heat_output_pct_total_output_mwh", "hydrogen_yield_kg_per_mwh_input_e",
         "oxygen_yield_kg_per_mwh_input_e"]) ∧
    (∀ f : FinancialData, dictKeys (financialDict f)
      = ["specific_investment_eur_per_kw_total_input",
         "specific_investment_eur_per_kg_per_hour_hydrogen_output",
         "o_and_m_pct_of_specific_investment_per_year"]) ∧
    (∀ t : TechnologySpecificData, dictKeys (technologyDict t)
      = ["current_density_a_per_cm2", "footprint_m2_per_mw_input_e",
         "degradation_rate_pct_per_annum", "frequency_of_stack_replacement_years"]) :=
  ⟨asdictConfigs_shape PLANT_CONFIGURATIONS,
   asdictConfigs_ids_length PLANT_CONFIGURATIONS,
   readAll_as_dict_list,
   fun _ _ _ _ => rfl, fun _ _ _ => rfl, fun _ => rfl, fun _ => rfl,
   fun _ => rfl, fun _ => rfl⟩

/-- Claim C6: calling `as_dict_list()` twice (second call on the heap the
first call produced) yields two structurally equal results, and the two
results share no mutable state: writing any key of any dictionary
allocated by the first call (heap indices below 12) leaves every value of
the second call's result equal to the catalog, and writing any dictionary
of the second call (indices 12 to 23) leaves the first call's result
equal to the catalog. -/
theorem as_dict_list_idempotent_no_sharing (j j2 : Nat) (k k2 : String)
    (v v2 : PyVal)
    (hj : j < (as_dict_list []).1.length)
    (hj2 : (as_dict_list []).1.length ≤ j2)
    (hj2' : j2 < (as_dict_list (as_dict_list []).1).1.length) :
    readAll (as_dict_list (as_dict_list []).1).1 (as_dict_list []).2
      = readAll (as_dict_list (as_dict_list []).1).1
        (as_dict_list (as_dict_list []).1).2 ∧
    readAll (setKey (as_dict_list (as_dict_list []).1).1 j k v)
      (as_dict_list (as_dict_list []).1).2
      = Option.some PLANT_CONFIGURATIONS ∧
    readAll (setKey (as_dict_list (as_dict_list []).1).1 j2 k2 v2)
      (as_dict_list []).2
      = Option.some PLANT_CONFIGURATIONS := by
  have hj' : j < 12 := hj
  have hj2l : 12 ≤ j2 := hj2
  have hj2u : j2 < 24 := hj2'
  refine ⟨rfl, ?_, ?_⟩
  · interval_cases j <;> rfl
  · interval_cases j2 <;> rfl

/-- Witness for claim C6 at concrete indices, key and value. -/
theorem as_dict_list_idempotent_no_sharing_witness :
    0 < (as_dict_list []).1.length ∧
    (as_dict_list []).1.length ≤ 12 ∧
    12 < (as_dict_list (as_dict_list []).1).1.length ∧
    readAll (setKey (as_dict_list (as_dict_list []).1).1 0 "name" PyVal.null)
      (as_dict_list (as_dict_list []).1).2
      = Option.some PLANT_CONFIGURATIONS :=
  ⟨by decide, by decide, by decide,
   (as_dict_list_idempotent_no_sharing 0 12 "name" "name" PyVal.null PyVal.null
     (by decide) (by decide) (by decide)).2.1⟩

/-- Claim C7: all six record classes are frozen dataclasses, so any
attribute assignment on a constructed record raises
`FrozenInstanceError` instead of mutating the record. -/
theorem frozen_records_reject_setattr :
    (∀ (x : InputData) (u : InputData → InputData),
      dcSetattr InputData.dataclassFrozen x u
        = Except.error "FrozenInstanceError") ∧
    (∀ (x : OutputData) (u : OutputData → OutputData),
      dcSetattr OutputData.dataclassFrozen x u
        = Except.error "FrozenInstanceError") ∧
    (∀ (x : EnergyTechnicalData) (u : EnergyTechnicalData → EnergyTechnicalData),
      dcSetattr EnergyTechnicalData.dataclassFrozen x u
        = Except.error "FrozenInstanceError") ∧
    (∀ (x : FinancialData) (u : FinancialData → FinancialData),
      dcSetattr FinancialData.dataclassFrozen x u
        = Except.error "FrozenInstanceError") ∧
    (∀ (x : TechnologySpecificData)
      (u : TechnologySpecificData → TechnologySpecificData),
      dcSetattr TechnologySpecificData.dataclassFrozen x u
        = Except.error "FrozenInstanceError") ∧
    (∀ (x : PlantConfiguration) (u : PlantConfiguration → PlantConfiguration),
      dcSetattr PlantConfiguration.dataclassFrozen x u
        = Except.error "FrozenInstanceError") :=
  ⟨fun _ _ => rfl, fun _ _ => rfl, fun _ _ => rfl,
   fun _ _ => rfl, fun _ _ => rfl, fun _ _ => rfl⟩

/-- Claim C8: both read accessors are pure and deterministic: the catalog
is a constant, and `as_dict_list()` started from any heap whatsoever
(i.e. after any number of earlier calls, in any order) reads back to the
same fixed values. -/
theorem read_accessors_deterministic :
    PLANT_CONFIGURATIONS = [AEC_100MW_ENS_2025, PEM_100MW_ENS_2025] ∧
    (∀ h : Heap, readAll (as_dict_list h).1 (as_dict_list h).2
      = Option.some PLANT_CONFIGURATIONS) ∧
    (∀ h h' : Heap, readAll (as_dict_list h).1 (as_dict_list h).2
      = readAll (as_dict_list h').1 (as_dict_list h').2) :=
  ⟨rfl, readAll_as_dict_list,
   fun h h' => by rw [readAll_as_dict_list, readAll_as_dict_list]⟩

/-- Claim C9: for every configuration in the catalog (PEM included, not
only AEC) the input split is entirely electricity: 100 % electricity,
absent (`None`, never zero) heat percentage, and 0 % heat loss. -/
theorem input_split_all_electricity (c : PlantConfiguration)
    (hc : c ∈ PLANT_CONFIGURATIONS) :
    c.energy_technical.input.electricity_pct_total_input_mwh = 100.0 ∧
    c.energy_technical.input.heat_pct_total_input_mwh = Option.none ∧
    c.energy_technical.input.heat_loss_pct_total_input_mwh = 0.0 := by
  simp only [PLANT_CONFIGURATIONS, List.mem_cons, List.not_mem_nil,
    or_false] at hc
  rcases hc with rfl | rfl
  · exact ⟨rfl, rfl, rfl⟩
  · exact ⟨rfl, rfl, rfl⟩

/-- Witness for claim C9 at the PEM configuration. -/
theorem input_split_all_electricity_witness :
    PEM_100MW_ENS_2025 ∈ PLANT_CONFIGURATIONS ∧
    (PEM_100MW_ENS_2025.energy_technical.input.electricity_pct_total_input_mwh
       = 100.0 ∧
     PEM_100MW_ENS_2025.energy_technical.input.heat_pct_total_input_mwh
       = Option.none ∧
     PEM_100MW_ENS_2025.energy_technical.input.heat_loss_pct_total_input_mwh
       = 0.0) :=
  ⟨List.Mem.tail _ (List.Mem.head _),
   input_split_all_electricity PEM_100MW_ENS_2025
     (List.Mem.tail _ (List.Mem.head _))⟩

/-- Claim C10: the two catalog entries carry distinct names, so the name
field identifies a configuration uniquely within the catalog. -/
theorem configuration_names_unique :
    AEC_100MW_ENS_2025.name ≠ PEM_100MW_ENS_2025.name ∧
    (PLANT_CONFIGURATIONS.map PlantConfiguration.name).Nodup := by
  exact ⟨by decide, by decide⟩
